import Mathlib

/-!
Shallow embedding of the secure-auth-service core (FastAPI/SQLModel app) and
proofs about its authentication state machine, password policy, registration,
email verification and admin user management.

Sources embedded:
- app/db/models.py          (the User table)
- app/core/config.py        (Settings)
- app/core/security.py      (verify_password via passlib, token creation)
- app/db/crud_backup.py     (get_user, get_user_by_email, create_user,
                             authenticate_user)
- app/api/v1/auth.py        (validate_password_complexity, register,
                             verify_email, login)
- app/api/v1/users.py       (delete_me, deactivate_user, delete_user_admin)

Conventions: timestamps are natural numbers (seconds, UTC); the database is a
list of User rows; SQLAlchemy commits of a mutated ORM row are modelled by
replacing the row with the same primary key; password hashing and the raw
bcrypt comparison are abstract function parameters, since their output bytes
never influence the control flow under study.
-/

namespace SecureAuth

/-- The User table of app/db/models.py.  `id` abstracts the UUID primary key;
`created_at` and `updated_at` are carried so that "no field changed" claims
really quantify over the whole stored row. -/
structure User where
  id : Nat
  email : String
  hashed_password : String
  is_active : Bool := true
  is_superuser : Bool := false
  failed_attempts : Nat := 0
  locked_until : Option Nat := none
  email_verified : Bool := false
  email_verification_token : Option String := none
  created_at : Nat := 0
  updated_at : Nat := 0
deriving Repr, DecidableEq

/-- The Settings class of app/core/config.py (the fields relevant to the core;
defaults as declared there). -/
structure Settings where
  ACCESS_TOKEN_EXPIRE_MINUTES : Nat := 15
  REFRESH_TOKEN_EXPIRE_DAYS : Nat := 7
  MAX_LOGIN_ATTEMPTS : Nat := 5
  LOCKOUT_DURATION_MINUTES : Nat := 15
deriving Repr, DecidableEq

/-- A database state: the rows of the user table. -/
abbrev Db := List User

/-- Committing a mutated ORM row: the row with the same primary key is
replaced by the mutated object (session.commit on a fetched row). -/
def commitUser (db : Db) (u : User) : Db :=
  db.map (fun v => if v.id = u.id then u else v)

/-- crud: get_user (lookup by primary key; `scalars().first()`). -/
def get_user (db : Db) (user_id : Nat) : Option User :=
  db.find? (fun v => v.id == user_id)

/-- crud: get_user_by_email (exact, case-sensitive match; `scalars().first()`). -/
def get_user_by_email (db : Db) (email : String) : Option User :=
  db.find? (fun v => v.email == email)

/-- crud: authenticate_user.  Returns the user only when the row exists, the
password verifies against the stored hash, and the row is active — in that
order, exactly as in app/db/crud_backup.py. -/
def authenticate_user (verify : String → String → Bool) (db : Db)
    (email password : String) : Option User :=
  match get_user_by_email db email with
  | none => none
  | some user =>
    if !(verify password user.hashed_password) then none
    else if !user.is_active then none
    else some user

/-- The claims of a signed JWT (app/core/security.py): subject, absolute
expiry, and the random token id `jti`. -/
structure JwtClaims where
  sub : String
  exp : Nat
  jti : Nat
deriving Repr, DecidableEq

/-- security: create_access_token with the default TTL
(`ACCESS_TOKEN_EXPIRE_MINUTES` minutes from now). -/
def create_access_token (s : Settings) (now jti : Nat) (subject : String) :
    JwtClaims :=
  { sub := subject, exp := now + s.ACCESS_TOKEN_EXPIRE_MINUTES * 60, jti := jti }

/-- security: create_refresh_token with the default TTL
(`REFRESH_TOKEN_EXPIRE_DAYS` days from now). -/
def create_refresh_token (s : Settings) (now jti : Nat) (subject : String) :
    JwtClaims :=
  { sub := subject, exp := now + s.REFRESH_TOKEN_EXPIRE_DAYS * 86400, jti := jti }

/-- Outcome of POST /auth/login, one constructor per exit of the handler. -/
inductive LoginResult where
  /-- HTTP 403, detail "Account locked until ...". -/
  | accountLocked (lockedUntil : Nat)
  /-- HTTP 401, detail "Incorrect credentials". -/
  | invalidCredentials
  /-- HTTP 401, detail "Email not verified". -/
  | emailNotVerified
  /-- HTTP 200 with the token pair. -/
  | success (access refresh : JwtClaims)
deriving Repr, DecidableEq

/-- The part of the login handler after the lockout gate (app/api/v1/auth.py
lines 131-163): authenticate; on failure increment `failed_attempts` and lock
with the literal constants 5 and 15 minutes (the handler does not read the
Settings values); on success require `email_verified`, then reset the
counters and issue the token pair. -/
def login_attempt (verify : String → String → Bool) (s : Settings)
    (now jtiAccess jtiRefresh : Nat) (db : Db) (email password : String) :
    LoginResult × Db :=
  match authenticate_user verify db email password with
  | none =>
    match get_user_by_email db email with
    | some user =>
      let fa := user.failed_attempts + 1
      if 5 ≤ fa then
        (LoginResult.invalidCredentials,
          commitUser db
            { user with locked_until := some (now + 15 * 60), failed_attempts := 0 })
      else
        (LoginResult.invalidCredentials, commitUser db { user with failed_attempts := fa })
    | none => (LoginResult.invalidCredentials, db)
  | some authed =>
    if !authed.email_verified then
      (LoginResult.emailNotVerified, db)
    else
      (LoginResult.success
          (create_access_token s now jtiAccess (toString authed.id))
          (create_refresh_token s now jtiRefresh (toString authed.id)),
        commitUser db { authed with failed_attempts := 0, locked_until := none })

/-- POST /auth/login (app/api/v1/auth.py lines 111-163).  First the lockout
gate: when the row exists and `locked_until` is strictly in the future the
handler answers 403 carrying that timestamp and touches nothing; otherwise it
falls through to `login_attempt`. -/
def login (verify : String → String → Bool) (s : Settings)
    (now jtiAccess jtiRefresh : Nat) (db : Db) (email password : String) :
    LoginResult × Db :=
  match get_user_by_email db email with
  | some user =>
    match user.locked_until with
    | some lu =>
      if now < lu then (LoginResult.accountLocked lu, db)
      else login_attempt verify s now jtiAccess jtiRefresh db email password
    | none => login_attempt verify s now jtiAccess jtiRefresh db email password
  | none => login_attempt verify s now jtiAccess jtiRefresh db email password

/-- The punctuation class of the special-character rule in
validate_password_complexity, app/api/v1/auth.py line 31. -/
def special_characters : List Char :=
  "!@#$%^&*(),.?\":\x7b\x7d|<>".toList

/-- The list of violated-rule messages collected by
validate_password_complexity (app/api/v1/auth.py lines 21-32), in source
order. -/
def password_errors (password : String) : List String :=
  (if password.length < 8 then
    ["Password must be at least 8 characters long."] else []) ++
  (if !(password.toList.any Char.isUpper) then
    ["Password must contain at least one uppercase letter."] else []) ++
  (if !(password.toList.any Char.isLower) then
    ["Password must contain at least one lowercase letter."] else []) ++
  (if !(password.toList.any Char.isDigit) then
    ["Password must contain at least one digit."] else []) ++
  (if !(password.toList.any (fun c => special_characters.contains c)) then
    ["Password must contain at least one special character."] else [])

/-- validate_password_complexity: `none` when the password passes, otherwise
`some` of the HTTPException(400) detail, the violated messages joined by a
space. -/
def validate_password_complexity (password : String) : Option String :=
  match password_errors password with
  | [] => none
  | errs => some (String.intercalate " " errs)

/-- Failure exits of POST /auth/register. -/
inductive RegisterError where
  /-- HTTPException(400) raised by validate_password_complexity. -/
  | weakPassword (detail : String)
  /-- The bare ValueError "User with this email already exists" raised by
  crud.create_user. -/
  | duplicateEmail
deriving Repr, DecidableEq

/-- The HTTP status each register failure surfaces with.  The weak-password
branch raises HTTPException(400).  The duplicate-email branch raises a bare
ValueError that the handler's except clause only logs and re-raises, and
app/main.py registers no handler for it, so Starlette's default error
handling answers 500. -/
def RegisterError.httpStatus : RegisterError → Nat
  | .weakPassword _ => 400
  | .duplicateEmail => 500

/-- crud: create_user.  Checks email uniqueness, then inserts a fresh active
non-superuser row with the hashed password.  `newId` stands for the generated
UUID, `hashFn` for get_password_hash. -/
def create_user (hashFn : String → String) (db : Db) (newId : Nat)
    (email password : String) : Except RegisterError (Db × User) :=
  match get_user_by_email db email with
  | some _ => Except.error RegisterError.duplicateEmail
  | none =>
    let user : User :=
      { id := newId, email := email, hashed_password := hashFn password,
        is_active := true, is_superuser := false }
    Except.ok (db ++ [user], user)

/-- POST /auth/register (app/api/v1/auth.py lines 59-98): password policy,
create_user, then the generated verification token is stored on the row with
`email_verified := false` and committed.  `token` stands for the generated
secrets.token_urlsafe value.  Email dispatch is fire-and-forget and does not
affect the stored state. -/
def register (hashFn : String → String) (db : Db) (newId : Nat)
    (email password token : String) : Except RegisterError (Db × Nat) :=
  match validate_password_complexity password with
  | some detail => Except.error (RegisterError.weakPassword detail)
  | none =>
    match create_user hashFn db newId email password with
    | Except.error e => Except.error e
    | Except.ok (db', user) =>
      let user' :=
        { user with email_verification_token := some token, email_verified := false }
      Except.ok (commitUser db' user', user'.id)

/-- Failure exits of GET /auth/verify-email. -/
inductive VerifyEmailError where
  /-- HTTPException(400), detail "Invalid or expired token". -/
  | invalidToken
  /-- scalar_one_or_none raises MultipleResultsFound when several rows carry
  the token; unhandled, so a 500. -/
  | multipleResults
deriving Repr, DecidableEq

/-- GET /auth/verify-email (app/api/v1/auth.py lines 99-108): look the row up
by its verification token; if found, set `email_verified` and clear the token
in one commit. -/
def verify_email (db : Db) (token : String) : Except VerifyEmailError Db :=
  match db.filter (fun v => v.email_verification_token == some token) with
  | [] => Except.error VerifyEmailError.invalidToken
  | [user] =>
    Except.ok (commitUser db
      { user with email_verified := true, email_verification_token := none })
  | _ => Except.error VerifyEmailError.multipleResults

/-- Failure exits of the admin user endpoints. -/
inductive ApiError where
  | notFound (detail : String)
  | forbidden (detail : String)
  | badRequest (detail : String)
deriving Repr, DecidableEq

/-- DELETE /users/me (app/api/v1/users.py lines 70-94): deletes the caller's
own row unconditionally — the handler has no superuser guard. -/
def delete_me (db : Db) (current_user : User) : Db :=
  db.filter (fun v => v.id != current_user.id)

/-- POST /users/\x7buser_id\x7d/deactivate (app/api/v1/users.py lines
258-301).  The last-superuser guard builds
`select(User).where(User.is_superuser is True, User.is_active is True)`;
in Python `User.is_superuser is True` is an identity test on the column
object, evaluated to the constant `False` while the statement is built, so
the WHERE clause is constantly false and the query returns no rows.  The
guard therefore fires for every superuser target. -/
def deactivate_user (db : Db) (admin : User) (user_id : Nat) :
    Except ApiError Db :=
  if !admin.is_superuser then
    Except.error (ApiError.forbidden "Not enough permissions")
  else
    match get_user db user_id with
    | none => Except.error (ApiError.notFound "User not found")
    | some user =>
      if user.is_superuser then
        let active_admins := db.filter (fun _ => false)
        if active_admins.length ≤ 1 then
          Except.error (ApiError.badRequest "Cannot deactivate the last active admin")
        else
          Except.ok (commitUser db { user with is_active := false })
      else
        Except.ok (commitUser db { user with is_active := false })

/-- DELETE /users/\x7buser_id\x7d (app/api/v1/users.py lines 304-345).  Same
constant-false WHERE clause (`User.is_superuser is True`) in the
last-superuser guard, so every superuser target is rejected. -/
def delete_user_admin (db : Db) (admin : User) (user_id : Nat) :
    Except ApiError Db :=
  if !admin.is_superuser then
    Except.error (ApiError.forbidden "Not enough permissions")
  else
    match get_user db user_id with
    | none => Except.error (ApiError.notFound "User not found")
    | some user =>
      if user.is_superuser then
        let all_admins := db.filter (fun _ => false)
        if all_admins.length ≤ 1 then
          Except.error (ApiError.badRequest "Cannot delete the last admin")
        else
          Except.ok (db.filter (fun v => v.id != user.id))
      else
        Except.ok (db.filter (fun v => v.id != user.id))

/-- The number of rows that are currently both superuser and active — the
quantity the last-superuser invariant is about. -/
def activeSuperuserCount (db : Db) : Nat :=
  (db.filter (fun u => u.is_superuser && u.is_active)).length

/-- passlib model: the bcrypt handler of CryptContext(schemes=["bcrypt"])
identifies a hash by its modular-crypt prefix. -/
def bcrypt_ident_prefixes : List String :=
  ["$2$", "$2a$", "$2b$", "$2x$", "$2y$"]

/-- passlib model: whether CryptContext identifies the string as a bcrypt
hash (the hash starts with one of the bcrypt idents). -/
def bcrypt_identify (hashed : String) : Bool :=
  bcrypt_ident_prefixes.any (fun p => p.toList.isPrefixOf hashed.toList)

/-- Errors verify_password can raise. -/
inductive PasslibError where
  /-- passlib.exc.UnknownHashError, raised when no configured scheme
  identifies the hash. -/
  | unknownHash
deriving Repr, DecidableEq

/-- security: verify_password (app/core/security.py lines 12-13).  The
function is a bare delegation to `pwd_context.verify`; CryptContext first
identifies the hash and raises UnknownHashError when the string matches no
configured scheme (here bcrypt only), otherwise it returns the bcrypt
comparison, abstracted as `bcryptCheck`.  There is no try/except in the
source. -/
def verify_password (bcryptCheck : String → String → Bool)
    (plain_password hashed_password : String) : Except PasslibError Bool :=
  if bcrypt_identify hashed_password then
    Except.ok (bcryptCheck plain_password hashed_password)
  else
    Except.error PasslibError.unknownHash

/-- An account is in the Unlocked state of the lockout machine:
`locked_until` is null or not in the future. -/
def Unlocked (now : Nat) (u : User) : Prop :=
  u.locked_until = none ∨ ∃ lu, u.locked_until = some lu ∧ lu ≤ now

/-- Claim C1 exactly as worded: the failed-login transition with the
threshold and duration taken from the configured Settings values.  (This
definition follows the claim's words; the code model is `login`.) -/
def lockoutConfigClaim (s : Settings) : Prop :=
  ∀ (verify : String → String → Bool) (now jA jR : Nat) (db : Db)
    (email password : String) (u : User),
    get_user_by_email db email = some u →
    Unlocked now u →
    verify password u.hashed_password = false →
    (s.MAX_LOGIN_ATTEMPTS ≤ u.failed_attempts + 1 →
      (login verify s now jA jR db email password).2 =
        commitUser db
          { u with locked_until := some (now + s.LOCKOUT_DURATION_MINUTES * 60),
                   failed_attempts := 0 }) ∧
    (u.failed_attempts + 1 < s.MAX_LOGIN_ATTEMPTS →
      (login verify s now jA jR db email password).2 =
        commitUser db { u with failed_attempts := u.failed_attempts + 1 })

/-- Spec-side reading of rule 1: length at least 8. -/
def specLengthOK (p : String) : Prop := 8 ≤ p.length

/-- Spec-side reading of rule 2: at least one uppercase letter. -/
def specHasUpper (p : String) : Prop := ∃ c ∈ p.toList, c.isUpper = true

/-- Spec-side reading of rule 3: at least one lowercase letter. -/
def specHasLower (p : String) : Prop := ∃ c ∈ p.toList, c.isLower = true

/-- Spec-side reading of rule 4: at least one digit. -/
def specHasDigit (p : String) : Prop := ∃ c ∈ p.toList, c.isDigit = true

/-- Spec-side reading of rule 5: at least one symbol of the punctuation
set. -/
def specHasSpecial (p : String) : Prop := ∃ c ∈ p.toList, c ∈ special_characters

/-- Concrete account: fresh, active, unverified, unlocked. -/
def userA : User := { id := 1, email := "a@x", hashed_password := "h" }

/-- Concrete account: active, verified, unlocked. -/
def userV : User :=
  { id := 2, email := "v@x", hashed_password := "h", email_verified := true }

/-- Concrete account: active, verified, locked until time 1000. -/
def userL : User :=
  { id := 3, email := "l@x", hashed_password := "h", email_verified := true,
    locked_until := some 1000 }

/-- Concrete account: inactive, verified, unlocked. -/
def userI : User :=
  { id := 4, email := "i@x", hashed_password := "h", is_active := false,
    email_verified := true }

/-- Concrete account: inactive, unverified, unlocked. -/
def userIU : User :=
  { id := 5, email := "iu@x", hashed_password := "h", is_active := false }

/-- Concrete account: active, unverified, locked until time 1000. -/
def userLU : User :=
  { id := 6, email := "lu@x", hashed_password := "h", locked_until := some 1000 }

/-- Concrete account: inactive, verified, locked until time 1000. -/
def userLI : User :=
  { id := 7, email := "li@x", hashed_password := "h", is_active := false,
    email_verified := true, locked_until := some 1000 }

/-- Concrete account: an active superuser. -/
def adminA : User :=
  { id := 10, email := "a1@x", hashed_password := "h", is_superuser := true,
    email_verified := true }

/-- Concrete account: a second active superuser. -/
def adminB : User :=
  { id := 11, email := "a2@x", hashed_password := "h", is_superuser := true,
    email_verified := true }

/-- The row create_user inserts for a fresh registration (before the
verification token is attached). -/
def createdUser (hashFn : String → String) (newId : Nat)
    (email password : String) : User :=
  { id := newId, email := email, hashed_password := hashFn password,
    is_active := true, is_superuser := false }

/-- The row the register handler inserts and commits for a fresh
registration: the create_user row carrying the verification token. -/
def freshUser (hashFn : String → String) (newId : Nat)
    (email password token : String) : User :=
  { id := newId, email := email, hashed_password := hashFn password,
    is_active := true, is_superuser := false, email_verified := false,
    email_verification_token := some token }

/-- The row produced by the first registration in the C8 scenario. -/
def regUserC8 : User :=
  { id := 1, email := "a@x", hashed_password := "ValidPass123!",
    email_verified := false, email_verification_token := some "tk1" }

lemma commitUser_fresh (db : Db) (u : User) (h : ∀ v ∈ db, v.id ≠ u.id) :
    commitUser db u = db := by
  induction db with
  | nil => rfl
  | cons a t ih =>
    have ha : a.id ≠ u.id := h a (List.mem_cons_self a t)
    have ht : commitUser t u = t := ih (fun v hv => h v (List.mem_cons_of_mem a hv))
    simp only [commitUser, List.map_cons, if_neg ha]
    simp only [commitUser] at ht
    rw [ht]

lemma commitUser_append_fresh (db : Db) (u u' : User) (hid : u.id = u'.id)
    (h : ∀ v ∈ db, v.id ≠ u'.id) :
    commitUser (db ++ [u]) u' = db ++ [u'] := by
  have hdb : commitUser db u' = db := commitUser_fresh db u' h
  simp only [commitUser, List.map_append] at hdb ⊢
  rw [hdb]
  simp [hid]

lemma get_user_append_eq (db : Db) (u : User) (uid : Nat)
    (h : ∀ v ∈ db, v.id ≠ uid) (hu : u.id = uid) :
    get_user (db ++ [u]) uid = some u := by
  induction db with
  | nil => simp [get_user, List.find?, hu]
  | cons a t ih =>
    have ha : a.id ≠ uid := h a (List.mem_cons_self a t)
    have ht := ih (fun v hv => h v (List.mem_cons_of_mem a hv))
    simp only [get_user] at ht ⊢
    rw [List.cons_append, List.find?_cons_of_neg]
    · exact ht
    · simp [ha]

lemma filter_token_eq_nil (db : Db) (tk : String)
    (h : ∀ v ∈ db, v.email_verification_token ≠ some tk) :
    db.filter (fun v => v.email_verification_token == some tk) = [] := by
  induction db with
  | nil => rfl
  | cons a t ih =>
    have ha : a.email_verification_token ≠ some tk := h a (List.mem_cons_self a t)
    rw [List.filter_cons, if_neg (by simp [ha])]
    exact ih (fun v hv => h v (List.mem_cons_of_mem a hv))

lemma login_unlocked_eq (verify : String → String → Bool) (s : Settings)
    (now jA jR : Nat) (db : Db) (email password : String) (u : User)
    (hu : get_user_by_email db email = some u) (hul : Unlocked now u) :
    login verify s now jA jR db email password =
      login_attempt verify s now jA jR db email password := by
  rcases hul with h | ⟨lu, hl, hle⟩
  · simp [login, hu, h]
  · simp [login, hu, hl, Nat.not_lt.mpr hle]

lemma authenticate_eq_none_of_verify_false (verify : String → String → Bool)
    (db : Db) (email password : String) (u : User)
    (hu : get_user_by_email db email = some u)
    (hv : verify password u.hashed_password = false) :
    authenticate_user verify db email password = none := by
  simp [authenticate_user, hu, hv]

lemma authenticate_eq_none_of_inactive (verify : String → String → Bool)
    (db : Db) (email password : String) (u : User)
    (hu : get_user_by_email db email = some u)
    (hin : u.is_active = false) :
    authenticate_user verify db email password = none := by
  by_cases hv : verify password u.hashed_password <;>
    simp [authenticate_user, hu, hv, hin]

lemma login_failed_eval (verify : String → String → Bool) (s : Settings)
    (now jA jR : Nat) (db : Db) (email password : String) (u : User)
    (hu : get_user_by_email db email = some u)
    (hul : Unlocked now u)
    (hauth : authenticate_user verify db email password = none) :
    login verify s now jA jR db email password =
      (LoginResult.invalidCredentials,
        if 5 ≤ u.failed_attempts + 1 then
          commitUser db
            { u with locked_until := some (now + 15 * 60), failed_attempts := 0 }
        else commitUser db { u with failed_attempts := u.failed_attempts + 1 }) := by
  rw [login_unlocked_eq verify s now jA jR db email password u hu hul]
  by_cases h5 : 5 ≤ u.failed_attempts + 1 <;>
    simp [login_attempt, hauth, hu, h5]

lemma login_success_eval (verify : String → String → Bool) (s : Settings)
    (now jA jR : Nat) (db : Db) (email password : String) (u : User)
    (hu : get_user_by_email db email = some u)
    (hul : Unlocked now u)
    (ha : u.is_active = true)
    (hv : verify password u.hashed_password = true)
    (hver : u.email_verified = true) :
    login verify s now jA jR db email password =
      (LoginResult.success (create_access_token s now jA (toString u.id))
          (create_refresh_token s now jR (toString u.id)),
        commitUser db { u with failed_attempts := 0, locked_until := none }) := by
  rw [login_unlocked_eq verify s now jA jR db email password u hu hul]
  have hauth : authenticate_user verify db email password = some u := by
    simp [authenticate_user, hu, hv, ha]
  simp [login_attempt, hauth, hver]

lemma verify_email_append_match (db : Db) (u : User) (tk : String)
    (htok : ∀ v ∈ db, v.email_verification_token ≠ some tk)
    (hmatch : u.email_verification_token = some tk) :
    verify_email (db ++ [u]) tk =
      Except.ok (commitUser (db ++ [u])
        { u with email_verified := true, email_verification_token := none }) := by
  unfold verify_email
  rw [List.filter_append, filter_token_eq_nil db tk htok]
  simp [List.filter, hmatch]

lemma verify_email_append_nomatch (db : Db) (u : User) (tk : String)
    (htok : ∀ v ∈ db, v.email_verification_token ≠ some tk)
    (hnomatch : u.email_verification_token ≠ some tk) :
    verify_email (db ++ [u]) tk = Except.error VerifyEmailError.invalidToken := by
  unfold verify_email
  rw [List.filter_append, filter_token_eq_nil db tk htok]
  have hb : (u.email_verification_token == some tk) = false :=
    beq_eq_false_iff_ne.mpr hnomatch
  simp [List.filter, hb]

/-- Claim C1, counterexample: the claim as stated is false.  With
MAX_LOGIN_ATTEMPTS configured to 3, a failed attempt that brings the counter
to 3 should lock the account per the claim, but the login handler compares
against the literal 5 (and uses a literal 15 minutes), never reading the
Settings values, so it merely stores failed_attempts = 3. -/
theorem C1_counterexample :
    ¬ lockoutConfigClaim { MAX_LOGIN_ATTEMPTS := 3 } := by
  intro h
  have h2 := (h (fun _ _ => false) 0 0 0
      [{ id := 1, email := "a@x", hashed_password := "h", failed_attempts := 2 }]
      "a@x" "pw"
      { id := 1, email := "a@x", hashed_password := "h", failed_attempts := 2 }
      rfl (Or.inl rfl) rfl).1 (by decide)
  exact absurd h2 (by decide)

/-- Claim C1 (amended): for every unlocked account, a login attempt whose
credential verification fails answers InvalidCredentials and increments
failed_attempts; when the incremented counter reaches the hardcoded
threshold 5, locked_until is set to now + the hardcoded 15 minutes and the
counter is reset to 0; otherwise the incremented counter is persisted.  The
threshold and duration equal the config defaults but the configured values
are never consulted. -/
theorem C1_lockout_amended (verify : String → String → Bool) (s : Settings)
    (now jA jR : Nat) (db : Db) (email password : String) (u : User)
    (hu : get_user_by_email db email = some u)
    (hul : Unlocked now u)
    (hv : verify password u.hashed_password = false) :
    (login verify s now jA jR db email password).1 = LoginResult.invalidCredentials ∧
    (5 ≤ u.failed_attempts + 1 →
      (login verify s now jA jR db email password).2 =
        commitUser db
          { u with locked_until := some (now + 15 * 60), failed_attempts := 0 }) ∧
    (u.failed_attempts + 1 < 5 →
      (login verify s now jA jR db email password).2 =
        commitUser db { u with failed_attempts := u.failed_attempts + 1 }) := by
  have hauth := authenticate_eq_none_of_verify_false verify db email password u hu hv
  have hev := login_failed_eval verify s now jA jR db email password u hu hul hauth
  rw [hev]
  refine ⟨rfl, ?_, ?_⟩
  · intro h5
    rw [if_pos h5]
  · intro h5
    rw [if_neg (by omega)]

/-- Witness for C1_lockout_amended at a concrete fresh account. -/
theorem C1_lockout_amended_witness :
    (login (fun _ _ => false) {} 7 0 0 [userA] "a@x" "pw").2 =
      commitUser [userA] { userA with failed_attempts := 1 } :=
  (C1_lockout_amended (fun _ _ => false) {} 7 0 0 [userA] "a@x" "pw" userA rfl
    (Or.inl rfl) rfl).2.2 (by decide)

/-- Claim C2, code evaluation: the last-superuser invariant does not hold in
the code.  With a single active superuser in the table, DELETE /users/me
deletes it, leaving zero active superusers; and with two active superusers,
the admin deactivate and delete endpoints nevertheless reject the operation,
because their count query compares the column object with `is True` and so
always sees zero rows. -/
theorem C2_code_bug_eval :
    activeSuperuserCount [adminA] = 1 ∧
    delete_me [adminA] adminA = [] ∧
    activeSuperuserCount (delete_me [adminA] adminA) = 0 ∧
    deactivate_user [adminA, adminB] adminA adminB.id =
      Except.error (ApiError.badRequest "Cannot deactivate the last active admin") ∧
    delete_user_admin [adminA, adminB] adminA adminB.id =
      Except.error (ApiError.badRequest "Cannot delete the last admin") :=
  ⟨rfl, rfl, rfl, rfl, rfl⟩

/-- Claim C3: a login attempt against an account whose locked_until is
strictly in the future is rejected with AccountLocked carrying the unlock
timestamp, the stored rows are unchanged, and the outcome is identical for
every password and every credential-verification function (verification is
never consulted). -/
theorem C3_locked_rejected (verify : String → String → Bool) (s : Settings)
    (now jA jR : Nat) (db : Db) (email password : String) (u : User) (lu : Nat)
    (hu : get_user_by_email db email = some u)
    (hl : u.locked_until = some lu) (hfut : now < lu) :
    login verify s now jA jR db email password = (LoginResult.accountLocked lu, db) ∧
    ∀ (verify2 : String → String → Bool) (password2 : String),
      login verify2 s now jA jR db email password2 =
        login verify s now jA jR db email password := by
  have key : ∀ (v : String → String → Bool) (pw : String),
      login v s now jA jR db email pw = (LoginResult.accountLocked lu, db) := by
    intro v pw
    simp [login, hu, hl, hfut]
  exact ⟨key verify password, fun v2 p2 => (key v2 p2).trans (key verify password).symm⟩

/-- Witness for C3_locked_rejected at a concrete locked account. -/
theorem C3_locked_rejected_witness :
    login (fun _ _ => true) {} 5 0 0 [userL] "l@x" "pw" =
      (LoginResult.accountLocked 1000, [userL]) :=
  (C3_locked_rejected (fun _ _ => true) {} 5 0 0 [userL] "l@x" "pw" userL 1000 rfl rfl
    (by decide)).1

/-- Claim C4, counterexample: the claim as stated is false.  An inactive
unverified account with the correct password (verification succeeds on
everything here) is answered InvalidCredentials — not EmailNotVerified — and
its failed_attempts counter is mutated from 0 to 1; a locked unverified
account is answered AccountLocked, again not EmailNotVerified. -/
theorem C4_counterexample :
    login (fun _ _ => true) {} 0 0 0 [userIU] "iu@x" "pw" =
      (LoginResult.invalidCredentials, [{ userIU with failed_attempts := 1 }]) ∧
    login (fun _ _ => true) {} 5 0 0 [userLU] "lu@x" "pw" =
      (LoginResult.accountLocked 1000, [userLU]) :=
  ⟨rfl, rfl⟩

/-- Claim C4 (amended): for every active, unlocked account whose
email_verified flag is false, login with the correct password yields the
EmailNotVerified rejection and leaves the stored table — every field of
every row — exactly as it was. -/
theorem C4_unverified_rejected (verify : String → String → Bool) (s : Settings)
    (now jA jR : Nat) (db : Db) (email password : String) (u : User)
    (hu : get_user_by_email db email = some u)
    (hul : Unlocked now u)
    (ha : u.is_active = true)
    (hv : verify password u.hashed_password = true)
    (hver : u.email_verified = false) :
    login verify s now jA jR db email password = (LoginResult.emailNotVerified, db) := by
  rw [login_unlocked_eq verify s now jA jR db email password u hu hul]
  have hauth : authenticate_user verify db email password = some u := by
    simp [authenticate_user, hu, hv, ha]
  simp [login_attempt, hauth, hver]

/-- Witness for C4_unverified_rejected at a concrete account. -/
theorem C4_unverified_rejected_witness :
    login (fun _ _ => true) {} 0 0 0 [userA] "a@x" "pw" =
      (LoginResult.emailNotVerified, [userA]) :=
  C4_unverified_rejected (fun _ _ => true) {} 0 0 0 [userA] "a@x" "pw" userA rfl
    (Or.inl rfl) rfl rfl rfl

/-- Claim C5, counterexample: the claim as stated is false.  An unlocked,
email-verified but inactive account presented with the correct password is
rejected with InvalidCredentials and its failure counter incremented,
instead of the promised success. -/
theorem C5_counterexample :
    (login (fun _ _ => true) {} 0 0 0 [userI] "i@x" "pw").1 =
      LoginResult.invalidCredentials ∧
    (login (fun _ _ => true) {} 0 0 0 [userI] "i@x" "pw").2 =
      [{ userI with failed_attempts := 1 }] :=
  ⟨rfl, rfl⟩

/-- Claim C5 (amended): for every unlocked, email-verified, and active
account presented with the correct password, login succeeds: it persists
failed_attempts = 0 and locked_until = null and returns an access/refresh
token pair whose subject is that account's id. -/
theorem C5_login_success_amended (verify : String → String → Bool) (s : Settings)
    (now jA jR : Nat) (db : Db) (email password : String) (u : User)
    (hu : get_user_by_email db email = some u)
    (hul : Unlocked now u)
    (ha : u.is_active = true)
    (hver : u.email_verified = true)
    (hv : verify password u.hashed_password = true) :
    login verify s now jA jR db email password =
      (LoginResult.success (create_access_token s now jA (toString u.id))
          (create_refresh_token s now jR (toString u.id)),
        commitUser db { u with failed_attempts := 0, locked_until := none }) ∧
    (create_access_token s now jA (toString u.id)).sub = toString u.id ∧
    (create_refresh_token s now jR (toString u.id)).sub = toString u.id :=
  ⟨login_success_eval verify s now jA jR db email password u hu hul ha hv hver,
    rfl, rfl⟩

/-- Witness for C5_login_success_amended at a concrete verified account. -/
theorem C5_login_success_amended_witness :
    login (fun _ _ => true) {} 0 0 0 [userV] "v@x" "pw" =
      (LoginResult.success (create_access_token {} 0 0 (toString userV.id))
          (create_refresh_token {} 0 0 (toString userV.id)),
        commitUser [userV] { userV with failed_attempts := 0, locked_until := none }) :=
  (C5_login_success_amended (fun _ _ => true) {} 0 0 0 [userV] "v@x" "pw" userV rfl
    (Or.inl rfl) rfl rfl rfl).1

/-- Claim C10, counterexample: the claim as stated is false.  An inactive
account that is also locked does not receive the uniform InvalidCredentials
answer on a correct-password attempt — the lockout gate answers
AccountLocked first — and its failed_attempts counter is not incremented. -/
theorem C10_counterexample :
    (login (fun _ _ => true) {} 5 0 0 [userLI] "li@x" "pw").1 =
      LoginResult.accountLocked 1000 ∧
    (login (fun _ _ => true) {} 5 0 0 [userLI] "li@x" "pw").2 = [userLI] ∧
    LoginResult.accountLocked 1000 ≠ LoginResult.invalidCredentials :=
  ⟨rfl, rfl, by decide⟩

/-- Claim C10 (amended): for every unlocked account whose is_active flag is
false, a correct-password login attempt is indistinguishable from a
wrong-password one: authentication returns no user, the caller receives
InvalidCredentials, and the whole outcome — response and stored state —
equals that of any attempt whose credential verification fails. -/
theorem C10_inactive_uniform (verify : String → String → Bool) (s : Settings)
    (now jA jR : Nat) (db : Db) (email password : String) (u : User)
    (hu : get_user_by_email db email = some u)
    (hul : Unlocked now u)
    (hin : u.is_active = false)
    (hv : verify password u.hashed_password = true) :
    authenticate_user verify db email password = none ∧
    (login verify s now jA jR db email password).1 = LoginResult.invalidCredentials ∧
    ∀ (verify2 : String → String → Bool) (password2 : String),
      verify2 password2 u.hashed_password = false →
      login verify2 s now jA jR db email password2 =
        login verify s now jA jR db email password := by
  have hauth := authenticate_eq_none_of_inactive verify db email password u hu hin
  have hev := login_failed_eval verify s now jA jR db email password u hu hul hauth
  refine ⟨hauth, by rw [hev], ?_⟩
  intro v2 p2 hv2
  have hauth2 := authenticate_eq_none_of_verify_false v2 db email p2 u hu hv2
  have hev2 := login_failed_eval v2 s now jA jR db email p2 u hu hul hauth2
  rw [hev, hev2]

/-- Witness for C10_inactive_uniform at a concrete inactive account. -/
theorem C10_inactive_uniform_witness :
    authenticate_user (fun _ _ => true) [userI] "i@x" "pw" = none ∧
    (login (fun _ _ => true) {} 0 0 0 [userI] "i@x" "pw").1 =
      LoginResult.invalidCredentials :=
  ⟨(C10_inactive_uniform (fun _ _ => true) {} 0 0 0 [userI] "i@x" "pw" userI rfl
      (Or.inl rfl) rfl rfl).1,
    (C10_inactive_uniform (fun _ _ => true) {} 0 0 0 [userI] "i@x" "pw" userI rfl
      (Or.inl rfl) rfl rfl).2.1⟩

/-- Claim C6: a fresh registration (valid password, unused email, fresh
token and id — the generated UUID and urlsafe token are new values) stores
the account unverified with its verification token; verifying with that
token flips email_verified to true and clears the token in the same commit;
and a second call with the now-consumed token fails with InvalidToken. -/
theorem C6_register_then_verify (hashFn : String → String) (db : Db)
    (newId : Nat) (email password token : String)
    (hpw : validate_password_complexity password = none)
    (hemail : get_user_by_email db email = none)
    (htok : ∀ v ∈ db, v.email_verification_token ≠ some token)
    (hid : ∀ v ∈ db, v.id ≠ newId) :
    ∃ db1 u,
      register hashFn db newId email password token = Except.ok (db1, newId) ∧
      get_user db1 newId = some u ∧
      u.email_verified = false ∧
      u.email_verification_token = some token ∧
      verify_email db1 token =
        Except.ok (commitUser db1
          { u with email_verified := true, email_verification_token := none }) ∧
      get_user (commitUser db1
          { u with email_verified := true, email_verification_token := none }) newId =
        some { u with email_verified := true, email_verification_token := none } ∧
      verify_email (commitUser db1
          { u with email_verified := true, email_verification_token := none }) token =
        Except.error VerifyEmailError.invalidToken := by
  have hcommit : commitUser
      (db ++ [createdUser hashFn newId email password])
      (freshUser hashFn newId email password token) =
      db ++ [freshUser hashFn newId email password token] :=
    commitUser_append_fresh db _ _ rfl hid
  have hreg : register hashFn db newId email password token =
      Except.ok (db ++ [freshUser hashFn newId email password token], newId) := by
    simp only [createdUser, freshUser] at hcommit
    simp only [register, hpw, create_user, hemail, freshUser]
    rw [hcommit]
  refine ⟨_, _, hreg, get_user_append_eq db _ newId hid rfl, rfl, rfl,
    verify_email_append_match db _ token htok rfl, ?_, ?_⟩
  · rw [commitUser_append_fresh db (freshUser hashFn newId email password token)
      ({ freshUser hashFn newId email password token with
        email_verified := true, email_verification_token := none }) rfl hid]
    exact get_user_append_eq db _ newId hid rfl
  · rw [commitUser_append_fresh db (freshUser hashFn newId email password token)
      ({ freshUser hashFn newId email password token with
        email_verified := true, email_verification_token := none }) rfl hid]
    exact verify_email_append_nomatch db _ token htok (by simp [freshUser])

/-- Witness for C6_register_then_verify on an empty table. -/
theorem C6_register_then_verify_witness :
    ∃ db1 u,
      register (fun x => x) [] 1 "a@x" "ValidPass123!" "tk" = Except.ok (db1, 1) ∧
      get_user db1 1 = some u ∧
      u.email_verified = false ∧
      u.email_verification_token = some "tk" ∧
      verify_email db1 "tk" =
        Except.ok (commitUser db1
          { u with email_verified := true, email_verification_token := none }) ∧
      get_user (commitUser db1
          { u with email_verified := true, email_verification_token := none }) 1 =
        some { u with email_verified := true, email_verification_token := none } ∧
      verify_email (commitUser db1
          { u with email_verified := true, email_verification_token := none }) "tk" =
        Except.error VerifyEmailError.invalidToken :=
  C6_register_then_verify (fun x => x) [] 1 "a@x" "ValidPass123!" "tk" rfl rfl
    (by simp) (by simp)

/-- Claim C8, code evaluation: registering the same email twice yields the
duplicate-email error on the second call and no duplicate row exists
afterwards; but the error is a bare ValueError that no handler converts, so
it surfaces as a 500, not as a 400-class response. -/
theorem C8_code_bug_eval :
    register (fun x => x) [] 1 "a@x" "ValidPass123!" "tk1" =
      Except.ok ([regUserC8], 1) ∧
    register (fun x => x) [regUserC8] 2 "a@x" "ValidPass123!" "tk2" =
      Except.error RegisterError.duplicateEmail ∧
    RegisterError.duplicateEmail.httpStatus = 500 ∧
    ([regUserC8].filter (fun u => u.email == "a@x")).length = 1 :=
  ⟨rfl, rfl, rfl, rfl⟩

/-- Claim C9, counterexample: the claim as stated is false.  On a stored
string that is not an identifiable bcrypt hash, verify_password does not
return false: the passlib context raises UnknownHashError, and the source
has no try/except around the call. -/
theorem C9_counterexample :
    verify_password (fun _ _ => false) "secret" "not-a-hash" =
      Except.error PasslibError.unknownHash ∧
    verify_password (fun _ _ => false) "secret" "not-a-hash" ≠ Except.ok false := by
  constructor
  · rfl
  · intro h
    rw [show verify_password (fun _ _ => false) "secret" "not-a-hash" =
        Except.error PasslibError.unknownHash from rfl] at h
    exact Except.noConfusion h

/-- Claim C9 (amended): verify_password returns the boolean bcrypt
comparison whenever the stored string is an identifiable bcrypt hash, and on
any malformed (unidentifiable) hash it raises UnknownHashError instead of
returning false. -/
theorem C9_verify_behaviour (bcryptCheck : String → String → Bool)
    (plain hashed : String) :
    (bcrypt_identify hashed = true →
      verify_password bcryptCheck plain hashed = Except.ok (bcryptCheck plain hashed)) ∧
    (bcrypt_identify hashed = false →
      verify_password bcryptCheck plain hashed = Except.error PasslibError.unknownHash) := by
  constructor <;> intro h <;> simp [verify_password, h]

/-- Witness for C9_verify_behaviour on a well-formed bcrypt hash. -/
theorem C9_verify_behaviour_witness :
    verify_password (fun _ _ => true) "pw" "$2b$12$abcdefghijklmnopqrstuv" =
      Except.ok true :=
  (C9_verify_behaviour (fun _ _ => true) "pw" "$2b$12$abcdefghijklmnopqrstuv").1
    (by decide)

lemma mem_ite_singleton {c : Prop} [Decidable c] (a b : String) :
    (a ∈ if c then [b] else []) ↔ (c ∧ a = b) := by
  by_cases h : c <;> simp [h]

lemma validate_none_iff (p : String) :
    validate_password_complexity p = none ↔ password_errors p = [] := by
  unfold validate_password_complexity
  cases h : password_errors p with
  | nil => simp
  | cons a t => simp

/-- Claim C7: the registration password check rejects a password exactly
when one of the five rules fails, and the collected error list carries the
message of a rule exactly when that rule is violated — all violations are
reported, not only the first. -/
theorem C7_password_policy (p : String) :
    (validate_password_complexity p = none ↔
      (specLengthOK p ∧ specHasUpper p ∧ specHasLower p ∧ specHasDigit p ∧
        specHasSpecial p)) ∧
    ("Password must be at least 8 characters long." ∈ password_errors p ↔
      ¬ specLengthOK p) ∧
    ("Password must contain at least one uppercase letter." ∈ password_errors p ↔
      ¬ specHasUpper p) ∧
    ("Password must contain at least one lowercase letter." ∈ password_errors p ↔
      ¬ specHasLower p) ∧
    ("Password must contain at least one digit." ∈ password_errors p ↔
      ¬ specHasDigit p) ∧
    ("Password must contain at least one special character." ∈ password_errors p ↔
      ¬ specHasSpecial p) := by
  refine ⟨?_, ?_, ?_, ?_, ?_, ?_⟩
  · rw [validate_none_iff]
    simp [password_errors, specLengthOK, specHasUpper, specHasLower,
      specHasDigit, specHasSpecial, List.any_eq_true, Nat.not_lt, List.contains]
  · simp [password_errors, mem_ite_singleton, List.mem_append, specLengthOK,
      Nat.not_le]
  · simp [password_errors, mem_ite_singleton, List.mem_append, specHasUpper,
      List.any_eq_true]
  · simp [password_errors, mem_ite_singleton, List.mem_append, specHasLower,
      List.any_eq_true]
  · simp [password_errors, mem_ite_singleton, List.mem_append, specHasDigit,
      List.any_eq_true]
  · simp [password_errors, mem_ite_singleton, List.mem_append, specHasSpecial,
      List.any_eq_true, List.contains]

end SecureAuth
